import Mathlib

/-!
Verification of the AI Image Studio gallery persistence layer and its callers.

The development shallowly embeds the TypeScript source:
  * the gallery store (dbService: initDB, addImageToGallery,
    getAllGalleryImages, deleteImageFromGallery) over IndexedDB,
  * the controller handlers of the application component
    (handleSaveToGallery, handleMergeFilesChange, handleRemoveMergeImage),
  * the image service (generateImage of geminiService).

Persistent store state is modelled as the list of records of the single
object store in insertion (key) order together with the autoIncrement key
generator, which in IndexedDB starts at 1 and is never reset by deletes.
Fallible operations are parameterised by a flag standing for the underlying
request firing onerror, and return the promise outcome as an Except value
carrying the exact reject message of the source.
-/

namespace AppModel

/-- A persisted gallery record (GalleryImage of types.ts): the autoIncrement
key `id` and the encoded-image string `imageData`. -/
structure GalleryImage where
  id : Nat
  imageData : String
deriving Repr, DecidableEq

/-- State of the object store "gallery" of database "AIImageStudioDB":
the stored records in ascending key order (which is insertion order, since
keys are generated monotonically) and the next key the autoIncrement
generator will hand out. -/
structure DBState where
  records : List GalleryImage
  nextId : Nat
deriving Repr, DecidableEq

/-- A freshly created store: no records, key generator at 1. -/
def initState : DBState := { records := [], nextId := 1 }

/-- `store.add({ imageData })` with keyPath `id`, autoIncrement: stores a new
record under the generated key and resolves with that key
(`resolve(request.result as number)`). -/
def addImageToGallery (s : DBState) (imageData : String) : Nat × DBState :=
  (s.nextId,
   { records := s.records ++ [{ id := s.nextId, imageData := imageData }],
     nextId := s.nextId + 1 })

/-- `store.getAll()` yields records in ascending key order; the source then
reverses: `resolve((request.result as GalleryImage[]).reverse())`. -/
def getAllGalleryImages (s : DBState) : List GalleryImage :=
  s.records.reverse

/-- `store.delete(id)`: removes the record with that key; an absent key is
not an error for IDBObjectStore.delete. -/
def deleteImageFromGallery (s : DBState) (i : Nat) : DBState :=
  { s with records := s.records.filter fun r => r.id != i }

/-- Reject message of initDB on request.onerror. -/
def msgInitError : String := "Error opening DB"

/-- Reject message of addImageToGallery on request.onerror. -/
def msgAddError : String := "Could not add image to gallery."

/-- Reject message of getAllGalleryImages on request.onerror. -/
def msgGetError : String := "Could not fetch images from gallery."

/-- Reject message of deleteImageFromGallery on request.onerror. -/
def msgDeleteError : String := "Could not delete image from gallery."

/-- addImageToGallery as its caller observes it: when the request fires
onerror (`fail`), the promise rejects with the source's message and the
aborted transaction leaves the store unchanged; otherwise it resolves with
the new key and the updated store. -/
def addImageToGalleryE (fail : Bool) (s : DBState) (d : String) :
    Except String (Nat × DBState) :=
  if fail then .error msgAddError else .ok (addImageToGallery s d)

/-- getAllGalleryImages as its caller observes it. -/
def getAllGalleryImagesE (fail : Bool) (s : DBState) :
    Except String (List GalleryImage) :=
  if fail then .error msgGetError else .ok (getAllGalleryImages s)

/-- deleteImageFromGallery as its caller observes it. -/
def deleteImageFromGalleryE (fail : Bool) (s : DBState) (i : Nat) :
    Except String DBState :=
  if fail then .error msgDeleteError else .ok (deleteImageFromGallery s i)

/-- Store states reachable by the store's own operations from a fresh
database. -/
inductive Reachable : DBState → Prop where
  | init : Reachable initState
  | add (s : DBState) (d : String) :
      Reachable s → Reachable (addImageToGallery s d).2
  | del (s : DBState) (i : Nat) :
      Reachable s → Reachable (deleteImageFromGallery s i)

/-- Store invariant: records are in strictly ascending key order and every
stored key is below the generator. -/
def Inv (s : DBState) : Prop :=
  s.records.Pairwise (fun a b => a.id < b.id) ∧
    ∀ r ∈ s.records, r.id < s.nextId

/-- A gallery store operation issued by a caller during one store lifetime. -/
inductive GalleryOp where
  | add (d : String)
  | remove (i : Nat)

/-- Run a sequence of store operations, collecting the keys that the add
calls resolve with, in call order. -/
def runOps (s : DBState) : List GalleryOp → DBState × List Nat
  | [] => (s, [])
  | GalleryOp.add d :: rest =>
      let p := addImageToGallery s d
      let q := runOps p.2 rest
      (q.1, p.1 :: q.2)
  | GalleryOp.remove i :: rest => runOps (deleteImageFromGallery s i) rest

/-- The spec's declared error kinds for the gallery store (section 7). -/
inductive StoreErrorKind where
  | initializationError
  | writeError
  | readError
deriving Repr, DecidableEq

/-- Follows the spec's words (sections 4.1 and 7): the declared kind of each
reject message the store surfaces — InitializationError for initialize,
WriteError for add and remove, ReadError for listAll. Used to compare the
source's reject messages against the declared taxonomy. -/
def declaredKind (msg : String) : Option StoreErrorKind :=
  if msg = msgInitError then some .initializationError
  else if msg = msgAddError then some .writeError
  else if msg = msgDeleteError then some .writeError
  else if msg = msgGetError then some .readError
  else none

/-- initDB as a caller observes one call to it sequentially: a cached handle
resolves at once; otherwise the open either fails — the promise rejects with
the source's message and the module variable stays unset — or succeeds with
a fresh handle that is cached. -/
def initDBE (fail : Bool) (cached : Option Nat) (freshHandle : Nat) :
    Except String Nat × Option Nat :=
  match cached with
  | some h => (.ok h, some h)
  | none =>
      if fail then (.error msgInitError, none)
      else (.ok freshHandle, some freshHandle)

/-- Fixed database name of dbService. -/
def DB_NAME : String := "AIImageStudioDB"

/-- Fixed object store name of dbService. -/
def STORE_NAME : String := "gallery"

/-- Fixed schema version of dbService. -/
def DB_VERSION : Nat := 1

/-- Environment of initDB: the module-level `db` variable, the number of
indexedDB.open requests issued so far (each successful open request produces
its own connection handle), and the backing database's stored version and
object store names (shared by all connections). -/
structure InitEnv where
  cached : Option Nat
  opensIssued : Nat
  backendVersion : Nat
  backendStores : List String
deriving Repr, DecidableEq

/-- Before anything ran: `db` unset, no opens, database absent (version 0). -/
def initEnv0 : InitEnv :=
  { cached := none, opensIssued := 0, backendVersion := 0, backendStores := [] }

/-- `indexedDB.open(DB_NAME, DB_VERSION)`: issues one connection request;
when the stored version is below DB_VERSION, onupgradeneeded runs and
creates the object store only if objectStoreNames does not already contain
it. -/
def openBackend (e : InitEnv) : InitEnv :=
  let stores :=
    if e.backendVersion < DB_VERSION then
      if STORE_NAME ∈ e.backendStores then e.backendStores
      else e.backendStores ++ [STORE_NAME]
    else e.backendStores
  { e with opensIssued := e.opensIssued + 1,
           backendVersion := max e.backendVersion DB_VERSION,
           backendStores := stores }

/-- The synchronous part of one initDB() call: when `db` is set the promise
resolves with it at once and nothing is opened; otherwise an open request is
issued and resolution waits for its onsuccess. -/
def initDBCall (e : InitEnv) : Option Nat × InitEnv :=
  match e.cached with
  | some h => (some h, e)
  | none => (none, openBackend e)

/-- request.onsuccess of an open: `db = request.result; resolve(db)`. -/
def initDBSuccess (e : InitEnv) (h : Nat) : InitEnv :=
  { e with cached := some h }

/-- Interleavable initDB events: the synchronous start of a call, and the
completion of a pending open with some handle. -/
inductive InitEv where
  | call
  | success (h : Nat)

/-- Run a sequence of initDB events against the environment. -/
def runInit (e : InitEnv) : List InitEv → InitEnv
  | [] => e
  | InitEv.call :: rest => runInit (initDBCall e).2 rest
  | InitEv.success h :: rest => runInit (initDBSuccess e h) rest

/-- Inline image payload of a response part (inlineData). -/
structure InlineData where
  mimeType : String
  data : String
deriving Repr, DecidableEq

/-- One part of a candidate's content: optional text, optional inline image. -/
structure GenPart where
  text : Option String
  inlineData : Option InlineData
deriving Repr, DecidableEq

/-- content of a candidate. -/
structure GenContent where
  parts : Option (List GenPart)
deriving Repr, DecidableEq

/-- One response candidate. -/
structure GenCandidate where
  content : GenContent
deriving Repr, DecidableEq

/-- The generateContent response as generateImage inspects it. -/
structure GenResponse where
  candidates : Option (List GenCandidate)
deriving Repr, DecidableEq

/-- Error message thrown inside the try block of generateImage when no part
carries inline image data. -/
def msgNoImages : String := "Image generation failed or returned no images."

/-- Error message generateImage surfaces from its catch block. -/
def msgGenerateFailed : String :=
  "Failed to generate image. Please check your prompt and API key."

/-- The extraction loop of generateImage: the inline data of the first part of
the first candidate that carries one. An empty candidates array makes
`response.candidates[0].content` throw in the source; the surrounding catch
turns that into the same failure as finding no inline data, so it is mapped
to none here. -/
def extractImage (r : GenResponse) : Option String :=
  match r.candidates with
  | none => none
  | some [] => none
  | some (c :: _) =>
      match c.content.parts with
      | none => none
      | some parts =>
          ((parts.find? fun p => p.inlineData.isSome).bind
            fun p => p.inlineData).map InlineData.data

/-- The try block of generateImage: return the first inline image, else throw. -/
def generateImageTry (r : GenResponse) : Except String String :=
  match extractImage r with
  | some d => .ok d
  | none => .error msgNoImages

/-- generateImage as its caller observes it, as a function of the
generateContent outcome: any rejection of the request, and any throw inside
the try block (including the no-images throw), is caught and rethrown as
msgGenerateFailed. -/
def generateImage (resp : Except String GenResponse) : Except String String :=
  match resp with
  | .error _ => .error msgGenerateFailed
  | .ok r =>
      match generateImageTry r with
      | .ok d => .ok d
      | .error _ => .error msgGenerateFailed

/-- A sample response whose first candidate carries inline image data. -/
def sampleImgResponse : GenResponse :=
  { candidates :=
      some [{ content :=
        { parts :=
            some [{ text := none,
                    inlineData :=
                      some { mimeType := "image/png", data := "IMG" } }] } }] }

/-- The slice of controller state handleSaveToGallery touches: the current
output image, the galleryImages list shown in the UI, and the error banner. -/
structure ControllerState where
  outputImage : Option String
  galleryImages : List GalleryImage
  errorMsg : Option String
deriving Repr, DecidableEq

/-- handleSaveToGallery: with no output image it does nothing; if some listed
gallery image already has exactly this imageData it returns before any store
call; otherwise it awaits addImageToGallery and prepends the new record to
the UI list, or on rejection sets the error banner and leaves both the list
and the store as they were. -/
def handleSaveToGallery (fail : Bool) (c : ControllerState) (s : DBState) :
    ControllerState × DBState :=
  match c.outputImage with
  | none => (c, s)
  | some out =>
      if c.galleryImages.any fun img => img.imageData == out then (c, s)
      else
        match addImageToGalleryE fail s out with
        | .ok (newId, s2) =>
            ({ c with galleryImages :=
                { id := newId, imageData := out } :: c.galleryImages }, s2)
        | .error e => ({ c with errorMsg := some e }, s)

/-- A file chosen in the merge file picker: its name and size in bytes. -/
structure MergeFile where
  name : String
  size : Nat
deriving Repr, DecidableEq

/-- One entry of the mergeImages state: the file and the generated id
(`Date.now() + Math.random()` in the source, supplied here as a parameter). -/
structure MergeImage where
  file : MergeFile
  id : Nat
deriving Repr, DecidableEq

/-- The slice of controller state the merge handlers touch. -/
structure MergeState where
  mergeImages : List MergeImage
  errorMsg : Option String
deriving Repr, DecidableEq

/-- Fresh merge state: `useState` starts with an empty list and no error. -/
def initMergeState : MergeState := { mergeImages := [], errorMsg := none }

/-- The 4MB limit of the source: `file.size > 4 * 1024 * 1024` skips. -/
def maxFileSize : Nat := 4 * 1024 * 1024

/-- Slot-exhaustion message; availableSlots is interpolated in the source. -/
def msgSlots (slots : Int) : String :=
  "You can only add " ++ toString slots ++ " more image(s)."

/-- File-too-large message; the source wraps the file name in single
quotation marks, elided here. -/
def msgTooLarge (n : String) : String :=
  "File " ++ n ++ " is too large (max 4MB)."

/-- The for-loop of handleMergeFilesChange over the files it considers,
carrying the loop index (for id generation), the images pushed so far and
the current error banner: an oversized file sets the error and continues;
any other file is pushed with a fresh id. -/
def mergeLoop (ids : Nat → Nat) (i : Nat) :
    List MergeFile → List MergeImage × Option String →
      List MergeImage × Option String
  | [], acc => acc
  | f :: fs, acc =>
      if f.size > maxFileSize then
        mergeLoop ids (i + 1) fs (acc.1, some (msgTooLarge f.name))
      else
        mergeLoop ids (i + 1) fs
          (acc.1 ++ [{ file := f, id := ids i }], acc.2)

/-- handleMergeFilesChange: clears the error, computes
`availableSlots = 6 - mergeImages.length`, reports when the selection is
larger than the available slots, then loops over the first
`Math.min(files.length, availableSlots)` files, skipping oversized ones, and
appends the pushed images to the current list. -/
def handleMergeFilesChange (ids : Nat → Nat) (s : MergeState)
    (files : List MergeFile) : MergeState :=
  let availableSlots : Int := 6 - (s.mergeImages.length : Int)
  let err0 : Option String :=
    if (files.length : Int) > availableSlots then some (msgSlots availableSlots)
    else none
  let considered := files.take (min (files.length : Int) availableSlots).toNat
  let r := mergeLoop ids 0 considered ([], err0)
  { mergeImages := s.mergeImages ++ r.1, errorMsg := r.2 }

/-- handleRemoveMergeImage: keeps the entries whose id differs. -/
def handleRemoveMergeImage (s : MergeState) (idToRemove : Nat) : MergeState :=
  { s with mergeImages := s.mergeImages.filter fun img => img.id != idToRemove }

/-- A merge-panel user action: a file selection (with the ids its pushes
draw) or the removal of one entry. -/
inductive MergeEv where
  | change (ids : Nat → Nat) (files : List MergeFile)
  | removeOne (i : Nat)

/-- Run a sequence of merge-panel actions. -/
def runMerge (s : MergeState) : List MergeEv → MergeState
  | [] => s
  | MergeEv.change ids files :: rest =>
      runMerge (handleMergeFilesChange ids s files) rest
  | MergeEv.removeOne i :: rest => runMerge (handleRemoveMergeImage s i) rest

/-- An oversized sample file (5 MB). -/
def bigFile : MergeFile := { name := "big.png", size := 5 * 1024 * 1024 }

/-- A small sample file. -/
def smallFile (k : Nat) : MergeFile := { name := "s" ++ toString k, size := 100 }

/-- A selection of one oversized file followed by six small ones. -/
def mixedSelection : List MergeFile :=
  [bigFile, smallFile 1, smallFile 2, smallFile 3, smallFile 4, smallFile 5,
   smallFile 6]

lemma inv_initState : Inv initState := by
  constructor <;> simp [initState]

lemma inv_add (s : DBState) (d : String) (h : Inv s) :
    Inv (addImageToGallery s d).2 := by
  obtain ⟨hp, hb⟩ := h
  constructor
  · simp only [addImageToGallery, List.pairwise_append]
    refine ⟨hp, by simp, ?_⟩
    intro a ha b hb2
    simp at hb2
    subst hb2
    exact hb a ha
  · intro r hr
    simp only [addImageToGallery, List.mem_append, List.mem_singleton] at hr
    rcases hr with hr | hr
    · exact Nat.lt_succ_of_lt (hb r hr)
    · subst hr
      simp [addImageToGallery]

lemma inv_del (s : DBState) (i : Nat) (h : Inv s) :
    Inv (deleteImageFromGallery s i) := by
  obtain ⟨hp, hb⟩ := h
  constructor
  · exact hp.sublist (List.filter_sublist _)
  · intro r hr
    simp only [deleteImageFromGallery, List.mem_filter] at hr
    exact hb r hr.1

lemma reachable_inv (s : DBState) (h : Reachable s) : Inv s := by
  induction h with
  | init => exact inv_initState
  | add s d _ ih => exact inv_add s d ih
  | del s i _ ih => exact inv_del s i ih

lemma runOps_spec (ops : List GalleryOp) :
    ∀ s : DBState,
      (∀ j ∈ (runOps s ops).2, s.nextId ≤ j)
      ∧ ((runOps s ops).2.Pairwise fun a b => a < b)
      ∧ (Inv s → Inv (runOps s ops).1) := by
  induction ops with
  | nil =>
      intro s
      simp [runOps]
  | cons op rest ih =>
      intro s
      cases op with
      | add d =>
          obtain ⟨ihb, ihp, ihi⟩ := ih (addImageToGallery s d).2
          have hnext : (addImageToGallery s d).2.nextId = s.nextId + 1 := rfl
          refine ⟨?_, ?_, ?_⟩
          · intro j hj
            simp only [runOps, List.mem_cons] at hj
            rcases hj with hj | hj
            · subst hj
              exact Nat.le_refl _
            · have := ihb j hj
              rw [hnext] at this
              exact Nat.le_of_succ_le this
          · simp only [runOps]
            refine List.Pairwise.cons ?_ ihp
            intro j hj
            have := ihb j hj
            rw [hnext] at this
            exact Nat.lt_of_succ_le this
          · intro hinv
            simpa [runOps] using ihi (inv_add s d hinv)
      | remove i =>
          obtain ⟨ihb, ihp, ihi⟩ := ih (deleteImageFromGallery s i)
          have hnext : (deleteImageFromGallery s i).nextId = s.nextId := rfl
          refine ⟨?_, ?_, ?_⟩
          · intro j hj
            exact hnext ▸ ihb j (by simpa [runOps] using hj)
          · simpa [runOps] using ihp
          · intro hinv
            simpa [runOps] using ihi (inv_del s i hinv)

lemma storesInv (e : InitEnv)
    (h : e.backendStores = [] ∨ e.backendStores = [STORE_NAME]) :
    ∀ evs, (runInit e evs).backendStores = []
      ∨ (runInit e evs).backendStores = [STORE_NAME] := by
  intro evs
  induction evs generalizing e with
  | nil => exact h
  | cons ev rest ih =>
      cases ev with
      | call =>
          refine ih (initDBCall e).2 ?_
          cases hc : e.cached with
          | some v => simpa [initDBCall, hc] using h
          | none =>
              have hcall : (initDBCall e).2 = openBackend e := by
                simp [initDBCall, hc]
              rw [hcall]
              rcases h with h | h
              · by_cases hv : e.backendVersion < DB_VERSION
                · right; simp [openBackend, h, hv]
                · left; simp [openBackend, h, hv]
              · by_cases hv : e.backendVersion < DB_VERSION
                · right; simp [openBackend, h, hv]
                · right; simp [openBackend, h, hv]
      | success hd =>
          exact ih (initDBSuccess e hd) (by simpa [initDBSuccess] using h)

lemma mergeLoop_files (ids : Nat → Nat) :
    ∀ (fs : List MergeFile) (i : Nat) (acc : List MergeImage × Option String),
      (mergeLoop ids i fs acc).1.map MergeImage.file
        = acc.1.map MergeImage.file
          ++ fs.filter fun f => decide (f.size ≤ maxFileSize) := by
  intro fs
  induction fs with
  | nil => intro i acc; simp [mergeLoop]
  | cons f rest ih =>
      intro i acc
      by_cases hf : f.size > maxFileSize
      · have hnot : ¬ f.size ≤ maxFileSize := by omega
        simp [mergeLoop, hf, ih, hnot]
      · have hle : f.size ≤ maxFileSize := by omega
        simp [mergeLoop, hf, ih, hle]

lemma mergeLoop_err (ids : Nat → Nat) :
    ∀ (fs : List MergeFile) (i : Nat) (acc : List MergeImage × Option String),
      acc.2.isSome = true → (mergeLoop ids i fs acc).2.isSome = true := by
  intro fs
  induction fs with
  | nil => intro i acc h; simpa [mergeLoop] using h
  | cons f rest ih =>
      intro i acc h
      by_cases hf : f.size > maxFileSize
      · simp only [mergeLoop, hf, if_pos]
        exact ih (i + 1) _ (by simp)
      · simp only [mergeLoop, hf, if_neg, not_false_iff]
        exact ih (i + 1) _ (by simpa using h)

lemma mergeChange_files (ids : Nat → Nat) (s : MergeState)
    (files : List MergeFile) :
    (handleMergeFilesChange ids s files).mergeImages.map MergeImage.file
      = s.mergeImages.map MergeImage.file
        ++ ((files.take
              (min (files.length : Int)
                (6 - (s.mergeImages.length : Int))).toNat).filter
            fun f => decide (f.size ≤ maxFileSize)) := by
  simp [handleMergeFilesChange, mergeLoop_files]

lemma mergeChange_len (ids : Nat → Nat) (s : MergeState)
    (files : List MergeFile) (h : s.mergeImages.length ≤ 6) :
    (handleMergeFilesChange ids s files).mergeImages.length ≤ 6 := by
  have hmap := congrArg List.length (mergeChange_files ids s files)
  simp only [List.length_map, List.length_append] at hmap
  have hfil :
      ((files.take
          (min (files.length : Int)
            (6 - (s.mergeImages.length : Int))).toNat).filter
        fun f => decide (f.size ≤ maxFileSize)).length
      ≤ (min (files.length : Int) (6 - (s.mergeImages.length : Int))).toNat := by
    calc ((files.take
            (min (files.length : Int)
              (6 - (s.mergeImages.length : Int))).toNat).filter
          fun f => decide (f.size ≤ maxFileSize)).length
        ≤ (files.take
            (min (files.length : Int)
              (6 - (s.mergeImages.length : Int))).toNat).length :=
          List.length_filter_le _ _
      _ ≤ (min (files.length : Int)
            (6 - (s.mergeImages.length : Int))).toNat := by
          simp [List.length_take]
  have hslot :
      (min (files.length : Int) (6 - (s.mergeImages.length : Int))).toNat
        ≤ 6 - s.mergeImages.length := by
    have : min (files.length : Int) (6 - (s.mergeImages.length : Int))
        ≤ 6 - (s.mergeImages.length : Int) := min_le_right _ _
    omega
  omega

lemma runMerge_le (evs : List MergeEv) :
    ∀ s : MergeState, s.mergeImages.length ≤ 6 →
      (runMerge s evs).mergeImages.length ≤ 6 := by
  induction evs with
  | nil => intro s h; simpa [runMerge] using h
  | cons ev rest ih =>
      intro s h
      cases ev with
      | change ids files =>
          exact ih _ (mergeChange_len ids s files h)
      | removeOne i =>
          refine ih _ ?_
          calc (handleRemoveMergeImage s i).mergeImages.length
              ≤ s.mergeImages.length := List.length_filter_le _ _
            _ ≤ 6 := h

/-- C1: in every reachable store state, listAll returns exactly the stored
records, ordered newest-first (strictly descending ids, i.e. the exact
reverse of insertion order); in particular inserting A, B, C into a fresh
store and listing yields [C, B, A]. -/
theorem listAll_newestFirst (s : DBState) (h : Reachable s) :
    ((getAllGalleryImages s).Pairwise fun a b => b.id < a.id)
    ∧ (∀ r, r ∈ getAllGalleryImages s ↔ r ∈ s.records)
    ∧ getAllGalleryImages
        (addImageToGallery
          (addImageToGallery (addImageToGallery initState "A").2 "B").2 "C").2
      = [{ id := 3, imageData := "C" }, { id := 2, imageData := "B" },
         { id := 1, imageData := "A" }] := by
  obtain ⟨hp, _⟩ := reachable_inv s h
  refine ⟨?_, ?_, ?_⟩
  · exact List.pairwise_reverse.mpr hp
  · intro r
    simp [getAllGalleryImages]
  · rfl

/-- Witness for C1 at the fresh store. -/
theorem listAll_newestFirst_witness :
    getAllGalleryImages
        (addImageToGallery
          (addImageToGallery (addImageToGallery initState "A").2 "B").2 "C").2
      = [{ id := 3, imageData := "C" }, { id := 2, imageData := "B" },
         { id := 1, imageData := "A" }] :=
  (listAll_newestFirst initState Reachable.init).2.2

/-- C2: adding imageData `d` to a reachable store and then listing yields
exactly one record whose id is the returned key and whose imageData is `d`;
filtering by the returned key alone already isolates that single record. -/
theorem addRoundTrip (s : DBState) (d : String) (n : Nat) (s2 : DBState)
    (h : Reachable s) (he : addImageToGallery s d = (n, s2)) :
    ((getAllGalleryImages s2).filter fun r => r.id == n && r.imageData == d)
      = [{ id := n, imageData := d }]
    ∧ ((getAllGalleryImages s2).filter fun r => r.id == n)
      = [{ id := n, imageData := d }] := by
  obtain ⟨_, hb⟩ := reachable_inv s h
  have hn : n = s.nextId := by
    simpa [addImageToGallery] using congrArg Prod.fst he.symm
  have hs2 : s2.records = s.records ++ [{ id := s.nextId, imageData := d }] := by
    have := congrArg Prod.snd he
    simp only [addImageToGallery] at this
    rw [← this]
  have hrev : getAllGalleryImages s2
      = { id := s.nextId, imageData := d } :: s.records.reverse := by
    simp [getAllGalleryImages, hs2]
  have hnil : ∀ (p : GalleryImage → Bool),
      (∀ r ∈ s.records, p r = false) → s.records.reverse.filter p = [] := by
    intro p hfalse
    refine List.filter_eq_nil_iff.mpr ?_
    intro a ha
    simp [hfalse a (List.mem_reverse.mp ha)]
  subst hn
  constructor
  · rw [hrev]
    rw [List.filter_cons_of_pos (by simp)]
    rw [hnil _ ?_]
    intro r hr
    have : r.id ≠ s.nextId := Nat.ne_of_lt (hb r hr)
    simp [this]
  · rw [hrev]
    rw [List.filter_cons_of_pos (by simp)]
    rw [hnil _ ?_]
    intro r hr
    have : r.id ≠ s.nextId := Nat.ne_of_lt (hb r hr)
    simp [this]

/-- Witness for C2: adding to the fresh store. -/
theorem addRoundTrip_witness :
    ((getAllGalleryImages
        { records := [{ id := 1, imageData := "A" }], nextId := 2 }).filter
      fun r => r.id == 1 && r.imageData == "A")
      = [{ id := 1, imageData := "A" }] :=
  (addRoundTrip initState "A" 1
      { records := [{ id := 1, imageData := "A" }], nextId := 2 }
      Reachable.init rfl).1

/-- C3: across any sequence of add and remove calls in one store lifetime,
the keys resolved by add are strictly increasing in call order (assigned
monotonically, never repeated, never reused after deletion), hence all
distinct, and the final store holds at most one record per id. -/
theorem galleryIds_unique (ops : List GalleryOp) :
    ((runOps initState ops).2.Pairwise fun a b => a < b)
    ∧ (runOps initState ops).2.Nodup
    ∧ ((runOps initState ops).1.records.map GalleryImage.id).Nodup := by
  obtain ⟨_, hp, hi⟩ := runOps_spec ops initState
  obtain ⟨hrec, _⟩ := hi inv_initState
  refine ⟨hp, hp.imp fun h => Nat.ne_of_lt h, ?_⟩
  exact (List.pairwise_map.mpr (hrec.imp fun h => h)).imp fun h => Nat.ne_of_lt h

/-- Witness for C3 at a concrete operation sequence: add, delete the
returned key, add again. -/
theorem galleryIds_unique_witness :
    ((runOps initState
        [GalleryOp.add "A", GalleryOp.remove 1, GalleryOp.add "B"]).2.Pairwise
      fun a b => a < b) :=
  (galleryIds_unique [GalleryOp.add "A", GalleryOp.remove 1, GalleryOp.add "B"]).1

/-- C4: remove resolves without error whether or not the id is present (so a
second remove of the same id does not raise), removing the same id twice
equals removing it once, and a remove keeps exactly the records with other
ids, in their original order. -/
theorem deleteIdempotent (s : DBState) (i : Nat) :
    deleteImageFromGalleryE false s i = .ok (deleteImageFromGallery s i)
    ∧ deleteImageFromGallery (deleteImageFromGallery s i) i
        = deleteImageFromGallery s i
    ∧ (∀ r, r ∈ (deleteImageFromGallery s i).records
        ↔ r ∈ s.records ∧ r.id ≠ i)
    ∧ (deleteImageFromGallery s i).records.Sublist s.records := by
  refine ⟨rfl, ?_, ?_, ?_⟩
  · simp [deleteImageFromGallery, List.filter_filter]
  · intro r
    simp [deleteImageFromGallery, List.mem_filter]
  · exact List.filter_sublist _

/-- Witness for C4 at a concrete store. -/
theorem deleteIdempotent_witness :
    deleteImageFromGallery
        (deleteImageFromGallery
          { records := [{ id := 1, imageData := "A" },
                        { id := 2, imageData := "B" }], nextId := 3 } 1) 1
      = deleteImageFromGallery
          { records := [{ id := 1, imageData := "A" },
                        { id := 2, imageData := "B" }], nextId := 3 } 1 :=
  (deleteIdempotent
      { records := [{ id := 1, imageData := "A" },
                    { id := 2, imageData := "B" }], nextId := 3 } 1).2.1

/-- C5: after removing an id, listAll contains no record with that id. -/
theorem postDeleteAbsence (s : DBState) (i : Nat) :
    ∀ r ∈ getAllGalleryImages (deleteImageFromGallery s i), (r.id == i) = false := by
  intro r hr
  simp only [getAllGalleryImages, List.mem_reverse, deleteImageFromGallery,
    List.mem_filter] at hr
  simpa using hr.2

/-- Witness for C5: record 2 survives the removal of id 1 and indeed does
not carry id 1. -/
theorem postDeleteAbsence_witness :
    ((GalleryImage.mk 2 "B").id == 1) = false :=
  postDeleteAbsence
    { records := [{ id := 1, imageData := "A" },
                  { id := 2, imageData := "B" }], nextId := 3 } 1
    (GalleryImage.mk 2 "B") (by decide)

/-- C7: a failing store operation always rejects to its caller with the
operation's declared message — classified as WriteError for add and remove,
ReadError for listAll, InitializationError for initDB — and the rejection
of a failed listAll carries no records at all (the resolved list exists only
in the success case). -/
theorem storeErrorPropagation (s : DBState) (d : String) (i fresh : Nat) :
    addImageToGalleryE true s d = .error msgAddError
    ∧ getAllGalleryImagesE true s = .error msgGetError
    ∧ deleteImageFromGalleryE true s i = .error msgDeleteError
    ∧ initDBE true none fresh = (.error msgInitError, none)
    ∧ declaredKind msgAddError = some StoreErrorKind.writeError
    ∧ declaredKind msgGetError = some StoreErrorKind.readError
    ∧ declaredKind msgDeleteError = some StoreErrorKind.writeError
    ∧ declaredKind msgInitError = some StoreErrorKind.initializationError := by
  refine ⟨rfl, rfl, rfl, rfl, ?_, ?_, ?_, ?_⟩ <;> decide

/-- Counterexample to C6: two initDB calls that both start before the first
open completes each issue their own indexedDB.open request, so two
connection handles are created, not one. -/
theorem initDB_counterexample :
    (runInit initEnv0 [InitEv.call, InitEv.call]).opensIssued = 2
    ∧ 1 < (runInit initEnv0 [InitEv.call, InitEv.call]).opensIssued := by
  constructor
  · rfl
  · decide

/-- C6 as amended: once a call has completed and cached a handle, every
subsequent initDB call resolves at once with that same handle and changes
nothing (no new open request); and no event sequence ever creates a
duplicate collection — the backing database holds the "gallery" store at
most once. Calls that start before the first completes, however, each issue
their own open (see the counterexample). -/
theorem initDB_amended (e : InitEnv) (h : Nat) (evs : List InitEv) :
    (e.cached = some h → initDBCall e = (some h, e))
    ∧ ((runInit initEnv0 evs).backendStores = []
        ∨ (runInit initEnv0 evs).backendStores = [STORE_NAME]) := by
  constructor
  · intro hc
    simp [initDBCall, hc]
  · exact storesInv initEnv0 (Or.inl rfl) evs

/-- Witness for C6 as amended: with handle 7 cached, a call resolves with 7
and leaves the environment untouched; a call-success-call sequence leaves
exactly one "gallery" store. -/
theorem initDB_amended_witness :
    initDBCall
        { cached := some 7, opensIssued := 1, backendVersion := 1,
          backendStores := [STORE_NAME] }
      = (some 7,
         { cached := some 7, opensIssued := 1, backendVersion := 1,
           backendStores := [STORE_NAME] })
    ∧ ((runInit initEnv0 [InitEv.call, InitEv.success 5, InitEv.call]).backendStores = []
        ∨ (runInit initEnv0
            [InitEv.call, InitEv.success 5, InitEv.call]).backendStores
          = [STORE_NAME]) :=
  ⟨(initDB_amended
      { cached := some 7, opensIssued := 1, backendVersion := 1,
        backendStores := [STORE_NAME] } 7 []).1 rfl,
   (initDB_amended initEnv0 0 [InitEv.call, InitEv.success 5, InitEv.call]).2⟩

/-- C8: generateImage either resolves with the encoded-image string found in
the response or raises; a rejected request raises msgGenerateFailed, a
response with no inline image data raises msgGenerateFailed (never resolving
with a missing result), and a resolution always carries the image data
present in the response. -/
theorem generateImage_total (e : String) (r : GenResponse) :
    generateImage (Except.error e) = Except.error msgGenerateFailed
    ∧ (extractImage r = none →
        generateImage (Except.ok r) = Except.error msgGenerateFailed)
    ∧ (∀ d, extractImage r = some d →
        generateImage (Except.ok r) = Except.ok d) := by
  refine ⟨rfl, ?_, ?_⟩
  · intro hn
    simp [generateImage, generateImageTry, hn]
  · intro d hd
    simp [generateImage, generateImageTry, hd]

/-- Witness for C8: a response without candidates raises; a response whose
first candidate carries inline data resolves with it. -/
theorem generateImage_total_witness :
    generateImage (Except.ok { candidates := none })
      = Except.error msgGenerateFailed
    ∧ generateImage (Except.ok sampleImgResponse) = Except.ok "IMG" :=
  ⟨(generateImage_total "rejected" { candidates := none }).2.1 rfl,
   (generateImage_total "rejected" sampleImgResponse).2.2 "IMG" rfl⟩

/-- C9: duplicate suppression lives in the controller, not the store. When a
currently listed gallery image equals the output image (full-string
equality), handleSaveToGallery performs no store operation and changes
nothing — whether or not the store would fail; when no duplicate is listed,
it adds to the store and prepends the returned record; and the store itself
accepts duplicate imageData under distinct ids. -/
theorem duplicateSuppression (fail : Bool) (c : ControllerState)
    (s : DBState) (out : String) (ho : c.outputImage = some out) :
    ((∃ img ∈ c.galleryImages, img.imageData = out) →
        handleSaveToGallery fail c s = (c, s))
    ∧ ((∀ img ∈ c.galleryImages, img.imageData ≠ out) →
        (handleSaveToGallery false c s).2 = (addImageToGallery s out).2
        ∧ (handleSaveToGallery false c s).1.galleryImages
            = { id := (addImageToGallery s out).1, imageData := out }
              :: c.galleryImages)
    ∧ (addImageToGallery (addImageToGallery initState "X").2 "X").2.records
        = [{ id := 1, imageData := "X" }, { id := 2, imageData := "X" }] := by
  refine ⟨?_, ?_, rfl⟩
  · intro hdup
    have hany : (c.galleryImages.any fun img => img.imageData == out) = true := by
      rcases hdup with ⟨img, hm, he⟩
      exact List.any_eq_true.mpr ⟨img, hm, by simp [he]⟩
    simp [handleSaveToGallery, ho, hany]
  · intro hnone
    have hany : (c.galleryImages.any fun img => img.imageData == out) = false := by
      rw [List.any_eq_false]
      intro img hm
      simp [hnone img hm]
    constructor <;>
      simp [handleSaveToGallery, ho, hany, addImageToGalleryE]

/-- Witness for C9: a listed duplicate blocks the save; a fresh output image
is added with the store's key. -/
theorem duplicateSuppression_witness :
    handleSaveToGallery true
        { outputImage := some "X",
          galleryImages := [{ id := 1, imageData := "X" }],
          errorMsg := none }
        initState
      = ({ outputImage := some "X",
           galleryImages := [{ id := 1, imageData := "X" }],
           errorMsg := none }, initState)
    ∧ (handleSaveToGallery false
        { outputImage := some "Y", galleryImages := [], errorMsg := none }
        initState).1.galleryImages
      = [{ id := 1, imageData := "Y" }] :=
  ⟨(duplicateSuppression true
      { outputImage := some "X",
        galleryImages := [{ id := 1, imageData := "X" }],
        errorMsg := none }
      initState "X" rfl).1 ⟨{ id := 1, imageData := "X" }, by simp, rfl⟩,
   ((duplicateSuppression false
      { outputImage := some "Y", galleryImages := [], errorMsg := none }
      initState "Y" rfl).2.1 (by simp)).2⟩

/-- Counterexample to C10 as stated: selecting one oversized and six small
files on an empty merge list only ever considers the first six files, so the
oversized one is skipped, five images result — below the limit of 6 — and
the sixth small file of the same selection is not added at all. -/
theorem mergeLimit_counterexample :
    (handleMergeFilesChange (fun i => i) initMergeState
        mixedSelection).mergeImages.length = 5
    ∧ 5 < 6
    ∧ smallFile 6 ∈ mixedSelection
    ∧ (smallFile 6).size ≤ maxFileSize
    ∧ ((handleMergeFilesChange (fun i => i) initMergeState
          mixedSelection).mergeImages.map MergeImage.file).count (smallFile 6)
        = 0 := by
  refine ⟨?_, ?_, ?_, ?_, ?_⟩ <;> decide

/-- C10 as amended: after any sequence of merge-panel actions the mergeImages
list holds at most 6 entries; a selection considers exactly its first
`min(files.length, 6 - current count)` files — among those, every file over
4 MiB is skipped and every other file is added, while files beyond that
prefix are never added even when skipped oversized files leave free slots —
and a selection larger than the available slots sets an error message. -/
theorem mergeLimit_amended (evs : List MergeEv) (ids : Nat → Nat)
    (s : MergeState) (files : List MergeFile) :
    (runMerge initMergeState evs).mergeImages.length ≤ 6
    ∧ (s.mergeImages.length ≤ 6 →
        (handleMergeFilesChange ids s files).mergeImages.length ≤ 6)
    ∧ (handleMergeFilesChange ids s files).mergeImages.map MergeImage.file
        = s.mergeImages.map MergeImage.file
          ++ ((files.take
                (min (files.length : Int)
                  (6 - (s.mergeImages.length : Int))).toNat).filter
              fun f => decide (f.size ≤ maxFileSize))
    ∧ ((files.length : Int) > 6 - (s.mergeImages.length : Int) →
        (handleMergeFilesChange ids s files).errorMsg.isSome = true) := by
  refine ⟨runMerge_le evs initMergeState (by simp [initMergeState]),
    mergeChange_len ids s files, mergeChange_files ids s files, ?_⟩
  intro hgt
  have h0 : (if (files.length : Int) > 6 - (s.mergeImages.length : Int) then
      some (msgSlots (6 - (s.mergeImages.length : Int))) else none).isSome
      = true := by
    simp [hgt]
  simpa [handleMergeFilesChange] using
    mergeLoop_err ids _ 0 (⟨[], _⟩) h0

/-- Witness for C10 as amended: a seven-file selection on an empty list sets
the error banner, and a six-image list never grows past 6. -/
theorem mergeLimit_amended_witness :
    (handleMergeFilesChange (fun i => i) initMergeState
        mixedSelection).errorMsg.isSome = true
    ∧ (handleMergeFilesChange (fun i => i) initMergeState
        mixedSelection).mergeImages.length ≤ 6 :=
  ⟨(mergeLimit_amended [] (fun i => i) initMergeState mixedSelection).2.2.2
      (by decide),
   (mergeLimit_amended [] (fun i => i) initMergeState mixedSelection).2.1
      (by decide)⟩

end AppModel
